import Mathlib

/-!
Shallow embedding of the vulkanClothSim application (C++), covering the
frame-lifecycle state machine, device/format/present-mode selection helpers,
the memory-type search, the vertex/index data, the startup initialization
order and the top-level error handling, together with theorems checking the
natural-language specification against these definitions.

Sources embedded: src/unnamed/part_001 (the latest application snapshot),
src/unnamed/part_002 (the Vertex header snapshot), src/resources/cloth.vert
(the vertex shader) and src/vulkanClothSim/main.cpp (an earlier snapshot,
not needed by any claim).
-/

namespace VulkanClothSim

/-! ## Constants (src/unnamed/part_001, lines 53-55, and the Vulkan headers) -/

def MAX_FRAMES_IN_FLIGHT : Nat := 2

/-- VkResult is a C enum; we embed it as its integer code.  VK_SUCCESS = 0. -/
def VK_SUCCESS : Int := 0

/-- VK_SUBOPTIMAL_KHR = 1000001003. -/
def VK_SUBOPTIMAL_KHR : Int := 1000001003

/-- VK_ERROR_OUT_OF_DATE_KHR = -1000001004. -/
def VK_ERROR_OUT_OF_DATE_KHR : Int := -1000001004

def EXIT_SUCCESS : Nat := 0

def EXIT_FAILURE : Nat := 1

/-! ## Present-mode selection (part_001, chooseSwapPresentMode, lines 469-481) -/

inductive VkPresentModeKHR where
  | immediateKHR
  | mailboxKHR
  | fifoKHR
  | fifoRelaxedKHR
  deriving DecidableEq

/-- chooseSwapPresentMode loops over the available modes, returns the first
one equal to VK_PRESENT_MODE_MAILBOX_KHR, and falls back to
VK_PRESENT_MODE_FIFO_KHR once the loop finishes. -/
def chooseSwapPresentMode : List VkPresentModeKHR → VkPresentModeKHR
  | [] => VkPresentModeKHR.fifoKHR
  | m :: rest =>
    if m = VkPresentModeKHR.mailboxKHR then m else chooseSwapPresentMode rest

/-! ## Surface-format selection (part_001, chooseSwapSurfaceFormat, lines
458-467) and device suitability (part_001, isDeviceSuitable, lines 257-274) -/

/-- A VkSurfaceFormatKHR is a pair of a VkFormat code and a color-space code. -/
structure VkSurfaceFormatKHR where
  format : Nat
  colorSpace : Nat
  deriving DecidableEq

/-- VK_FORMAT_B8G8R8A8_SRGB = 50. -/
def VK_FORMAT_B8G8R8A8_SRGB : Nat := 50

/-- VK_COLOR_SPACE_SRGB_NONLINEAR_KHR = 0. -/
def VK_COLOR_SPACE_SRGB_NONLINEAR_KHR : Nat := 0

/-- The condition tested inside the loop of chooseSwapSurfaceFormat. -/
def isPreferredSurfaceFormat (f : VkSurfaceFormatKHR) : Bool :=
  f.format == VK_FORMAT_B8G8R8A8_SRGB &&
    f.colorSpace == VK_COLOR_SPACE_SRGB_NONLINEAR_KHR

/-- chooseSwapSurfaceFormat returns the first available format matching
B8G8R8A8_SRGB with SRGB nonlinear color space, and otherwise
availableFormats[0].  The unguarded [0] indexing is embedded as List.head
with an explicit non-emptiness proof obligation. -/
def chooseSwapSurfaceFormat (availableFormats : List VkSurfaceFormatKHR)
    (h : availableFormats ≠ []) : VkSurfaceFormatKHR :=
  match availableFormats.find? isPreferredSurfaceFormat with
  | some f => f
  | none => availableFormats.head h

/-- The swap-chain support queried from a physical device
(part_001, SwapChainSupportDetails / querySwapChainSupport). -/
structure SwapChainSupportDetails where
  formats : List VkSurfaceFormatKHR
  presentModes : List VkPresentModeKHR
  deriving DecidableEq

/-- The facts about a physical device that isDeviceSuitable inspects:
findQueueFamilies(...).isComplete(), checkDeviceExtensionSupport,
querySwapChainSupport, and the samplerAnisotropy feature bit. -/
structure PhysicalDeviceInfo where
  queueFamiliesComplete : Bool
  extensionsSupported : Bool
  swapChainSupport : SwapChainSupportDetails
  samplerAnisotropy : Bool
  deriving DecidableEq

/-- isDeviceSuitable: swapChainAdequate starts false and is only assigned
(to formats nonempty and presentModes nonempty) when extensionsSupported. -/
def isDeviceSuitable (d : PhysicalDeviceInfo) : Bool :=
  let swapChainAdequate :=
    if d.extensionsSupported then
      !d.swapChainSupport.formats.isEmpty &&
        !d.swapChainSupport.presentModes.isEmpty
    else false
  d.queueFamiliesComplete && d.extensionsSupported && swapChainAdequate &&
    d.samplerAnisotropy

/-! ## Memory-type search (part_001, findMemoryType, lines 1221-1231) -/

/-- The loop condition of findMemoryType for index i:
`(typeFilter & (1 << i)) && ((memoryTypes[i].propertyFlags & properties) == properties)`.
A memory type is embedded as its propertyFlags bitmask. -/
def memTypeMatches (typeFilter properties : Nat) (memoryTypes : List Nat)
    (i : Nat) : Bool :=
  (typeFilter &&& (1 <<< i) != 0) &&
    ((memoryTypes.getD i 0) &&& properties == properties)

/-- The `for (i = 0; i < memoryTypeCount; i++)` loop of findMemoryType,
iterating over an explicit list of indices. -/
def findMemoryTypeLoop (typeFilter properties : Nat) (memoryTypes : List Nat) :
    List Nat → Except String Nat
  | [] => Except.error "failed to find suitable memory type!"
  | i :: rest =>
    if memTypeMatches typeFilter properties memoryTypes i then Except.ok i
    else findMemoryTypeLoop typeFilter properties memoryTypes rest

/-- findMemoryType returns the first index in [0, memoryTypeCount) whose
filter bit is set and whose propertyFlags contain all requested properties,
and throws "failed to find suitable memory type!" otherwise. -/
def findMemoryType (typeFilter properties : Nat) (memoryTypes : List Nat) :
    Except String Nat :=
  findMemoryTypeLoop typeFilter properties memoryTypes
    (List.range memoryTypes.length)

/-! ## Vertex data (part_002 Vertex header; part_001 vertices/indices,
lines 66-77; src/resources/cloth.vert shader inputs) -/

inductive VkFormat where
  | r32g32Sfloat
  | r32g32b32Sfloat
  deriving DecidableEq

/-- One entry of Vertex::getAttributeDescriptions() (part_002). -/
structure VkVertexInputAttributeDescription where
  binding : Nat
  location : Nat
  format : VkFormat
  offset : Nat
  deriving DecidableEq

/-- The Vertex struct as declared in the Vertex header present in the
sources (src/unnamed/part_002): exactly two fields, a vec2 position and a
vec3 color.  Coordinates are embedded as rationals (the literals in the
sources are all exactly representable). -/
structure Vertex where
  pos : ℚ × ℚ
  color : ℚ × ℚ × ℚ
  deriving DecidableEq

/-- Vertex::getAttributeDescriptions() from part_002: two descriptions,
location 0 (R32G32_SFLOAT at offsetof(Vertex, pos) = 0) and location 1
(R32G32B32_SFLOAT at offsetof(Vertex, color) = 8). -/
def getAttributeDescriptions : List VkVertexInputAttributeDescription :=
  [{ binding := 0, location := 0, format := VkFormat.r32g32Sfloat, offset := 0 },
   { binding := 0, location := 1, format := VkFormat.r32g32b32Sfloat, offset := 8 }]

/-- One aggregate initializer of the `vertices` constant in part_001:
each has three clauses (a vec2 position, a vec3 color, a vec2 texture
coordinate). -/
structure VertexInitializer where
  pos : ℚ × ℚ
  color : ℚ × ℚ × ℚ
  texCoord : ℚ × ℚ
  deriving DecidableEq

/-- The constant vertex list of part_001 (lines 66-71). -/
def vertices : List VertexInitializer :=
  [{ pos := (-(1/2), -(1/2)), color := (1, 0, 0), texCoord := (1, 0) },
   { pos := (1/2, -(1/2)), color := (0, 1, 0), texCoord := (0, 0) },
   { pos := (1/2, 1/2), color := (0, 0, 1), texCoord := (0, 1) },
   { pos := (-(1/2), 1/2), color := (1, 1, 1), texCoord := (1, 1) }]

/-- The constant index list of part_001 (lines 75-77), a uint16_t vector. -/
def indices : List Nat := [0, 1, 2, 2, 3, 0]

/-- An input declaration of the vertex shader: its location and its number
of components. -/
structure ShaderInput where
  location : Nat
  components : Nat
  deriving DecidableEq

/-- The three input declarations of src/resources/cloth.vert:
inPosition (vec3, location 0), inColor (vec3, location 1),
inTexCoord (vec2, location 2). -/
def clothVertInputs : List ShaderInput :=
  [{ location := 0, components := 3 },
   { location := 1, components := 3 },
   { location := 2, components := 2 }]

/-! ## The per-frame draw routine (part_001, drawFrame, lines 1566-1645) -/

/-- The observable actions of drawFrame, in the order the source performs
them. -/
inductive FrameEvent where
  | waitFences
  | resetFences
  | acquireImage
  | recreateSwapChain
  | updateUniformBuffer
  | resetCommandBuffer
  | recordCommandBuffer
  | queueSubmit
  | queuePresent
  deriving DecidableEq

/-- The mutable per-frame state drawFrame reads and writes:
`uint32_t currentFrame = 0` and `bool framebufferResized = false`
(part_001, lines 149-150). -/
structure DrawState where
  currentFrame : Nat
  framebufferResized : Bool
  deriving DecidableEq

/-- The environment of one drawFrame call: the results the Vulkan driver
returns for vkAcquireNextImageKHR, vkQueueSubmit and vkQueuePresentKHR, and
whether the GLFW resize callback fired before this frame (it sets
framebufferResized, part_001 line 176). -/
structure DrawEnv where
  acquireResult : Int
  submitResult : Int
  presentResult : Int
  resizeEvent : Bool
  deriving DecidableEq

/-- How one drawFrame call ends: normally, by the early `return` after an
out-of-date acquire, or by throwing. -/
inductive DrawOutcome where
  | completed (trace : List FrameEvent) (st : DrawState)
  | earlyReturn (trace : List FrameEvent) (st : DrawState)
  | threw (trace : List FrameEvent) (msg : String)
  deriving DecidableEq

/-- A C++ bool converted to int for comparison against a VkResult:
false is 0 and true is 1. -/
def boolToVkResult (b : Bool) : Int := if b then 1 else 0

/-- The present-result condition at part_001 line 1634, exactly as written:
`result == VK_ERROR_OUT_OF_DATE_KHR || result == VK_SUBOPTIMAL_KHR ||
result == framebufferResized`.  The last comparison promotes the bool
framebufferResized to the integers 0/1 and compares it with the VkResult. -/
def presentHandlingRecreates (result : Int) (framebufferResized : Bool) : Bool :=
  result == VK_ERROR_OUT_OF_DATE_KHR || result == VK_SUBOPTIMAL_KHR ||
    result == boolToVkResult framebufferResized

/-- drawFrame: wait on the current frame's fence, reset it, acquire a
swapchain image (early return and recreate on OUT_OF_DATE, throw on any
other non-success, non-suboptimal result), update the uniform buffer, reset
the fence and the command buffer, record the command buffer, submit it
(throw on failure), present, run the present-result handling of line 1634,
then advance currentFrame modulo MAX_FRAMES_IN_FLIGHT. -/
def drawFrame (env : DrawEnv) (st : DrawState) : DrawOutcome :=
  let t1 : List FrameEvent :=
    [FrameEvent.waitFences, FrameEvent.resetFences, FrameEvent.acquireImage]
  if env.acquireResult == VK_ERROR_OUT_OF_DATE_KHR then
    DrawOutcome.earlyReturn (t1 ++ [FrameEvent.recreateSwapChain]) st
  else if env.acquireResult != VK_SUCCESS && env.acquireResult != VK_SUBOPTIMAL_KHR then
    DrawOutcome.threw t1 "failed to acquire swap chain image!"
  else
    let t2 := t1 ++ [FrameEvent.updateUniformBuffer, FrameEvent.resetFences,
      FrameEvent.resetCommandBuffer, FrameEvent.recordCommandBuffer,
      FrameEvent.queueSubmit]
    if env.submitResult != VK_SUCCESS then
      DrawOutcome.threw t2 "failed to submit draw command buffer!"
    else
      let t3 := t2 ++ [FrameEvent.queuePresent]
      if presentHandlingRecreates env.presentResult st.framebufferResized then
        DrawOutcome.completed (t3 ++ [FrameEvent.recreateSwapChain])
          { currentFrame := (st.currentFrame + 1) % MAX_FRAMES_IN_FLIGHT,
            framebufferResized := false }
      else if env.presentResult != VK_SUCCESS && env.presentResult != VK_SUBOPTIMAL_KHR then
        DrawOutcome.threw t3 "failed to acquire swap chain image!"
      else
        DrawOutcome.completed t3
          { st with currentFrame := (st.currentFrame + 1) % MAX_FRAMES_IN_FLIGHT }

/-- The state the Application starts with (part_001, lines 149-150). -/
def initialState : DrawState := { currentFrame := 0, framebufferResized := false }

/-- One iteration of mainLoop: glfwPollEvents may fire the resize callback
(setting framebufferResized), then drawFrame runs; a thrown exception
propagates out of mainLoop, so no state after a throw is ever used. -/
def stepFrame (env : DrawEnv) (st : DrawState) : DrawState :=
  let st1 := { st with framebufferResized := st.framebufferResized || env.resizeEvent }
  match drawFrame env st1 with
  | DrawOutcome.completed _ st2 => st2
  | DrawOutcome.earlyReturn _ st2 => st2
  | DrawOutcome.threw _ _ => st1

/-- The state after running mainLoop for a given sequence of per-frame
environments, starting from the initial state. -/
def runFrames (envs : List DrawEnv) : DrawState :=
  envs.foldl (fun s e => stepFrame e s) initialState

/-- A frame environment in which every Vulkan call succeeds and no resize
callback fires. -/
def envAllSuccess : DrawEnv :=
  { acquireResult := VK_SUCCESS, submitResult := VK_SUCCESS,
    presentResult := VK_SUCCESS, resizeEvent := false }

/-- The sizes of the per-frame arrays, all resized to MAX_FRAMES_IN_FLIGHT:
inFlightFences, imageAvailableSemaphores, renderFinishedSemaphores
(createSyncObjects, part_001 lines 1030-1032), commandBuffers
(createCommandBuffers, line 1014), descriptorSets (createDescriptorSets,
line 1370) and uniformBuffers (createUniformBuffers, line 1317). -/
def inFlightFencesLength : Nat := MAX_FRAMES_IN_FLIGHT

def imageAvailableSemaphoresLength : Nat := MAX_FRAMES_IN_FLIGHT

def renderFinishedSemaphoresLength : Nat := MAX_FRAMES_IN_FLIGHT

def commandBuffersLength : Nat := MAX_FRAMES_IN_FLIGHT

def descriptorSetsLength : Nat := MAX_FRAMES_IN_FLIGHT

def uniformBuffersLength : Nat := MAX_FRAMES_IN_FLIGHT

/-! ## Startup initialization (part_001, run lines 90-95 and initVulkan
lines 1532-1554) -/

/-- The phases of Application::run(). -/
inductive RunPhase where
  | initWindow
  | initVulkan
  | mainLoop
  | cleanup
  deriving DecidableEq

/-- Application::run() executes initWindow, initVulkan, mainLoop, cleanup. -/
def runPhases : List RunPhase :=
  [RunPhase.initWindow, RunPhase.initVulkan, RunPhase.mainLoop, RunPhase.cleanup]

/-- The object-creation steps called by initVulkan, one per source line. -/
inductive InitStep where
  | createInstance
  | createSurface
  | pickPhysicalDevice
  | createLogicalDevice
  | createSwapChain
  | createImageViews
  | createRenderPass
  | createDescriptorSetLayout
  | createGraphicsPipeline
  | createFramebuffers
  | createCommandPool
  | createTextureImage
  | createTextureImageView
  | createTextureSampler
  | createVertexBuffer
  | createIndexBuffer
  | createUniformBuffers
  | createDescriptorPool
  | createDescriptorSets
  | createCommandBuffers
  | createSyncObjects
  deriving DecidableEq

/-- The body of initVulkan, in source order. -/
def initVulkanSteps : List InitStep :=
  [InitStep.createInstance, InitStep.createSurface, InitStep.pickPhysicalDevice,
   InitStep.createLogicalDevice, InitStep.createSwapChain, InitStep.createImageViews,
   InitStep.createRenderPass, InitStep.createDescriptorSetLayout,
   InitStep.createGraphicsPipeline, InitStep.createFramebuffers,
   InitStep.createCommandPool, InitStep.createTextureImage,
   InitStep.createTextureImageView, InitStep.createTextureSampler,
   InitStep.createVertexBuffer, InitStep.createIndexBuffer,
   InitStep.createUniformBuffers, InitStep.createDescriptorPool,
   InitStep.createDescriptorSets, InitStep.createCommandBuffers,
   InitStep.createSyncObjects]

/-- The ten-step order named by the specification (instance, surface,
physical device, logical device, swapchain, render pass, pipeline, buffers,
descriptor sets, sync objects), with "buffers" read as the three buffer
creation steps. -/
def claimedInitOrder : List InitStep :=
  [InitStep.createInstance, InitStep.createSurface, InitStep.pickPhysicalDevice,
   InitStep.createLogicalDevice, InitStep.createSwapChain, InitStep.createRenderPass,
   InitStep.createGraphicsPipeline, InitStep.createVertexBuffer,
   InitStep.createIndexBuffer, InitStep.createUniformBuffers,
   InitStep.createDescriptorSets, InitStep.createSyncObjects]

/-- The uses-the-result-of dependencies among the initVulkan steps, read off
the bodies of the creation functions in part_001: (a, b) means step b uses
a handle produced by step a. -/
def initVulkanDeps : List (InitStep × InitStep) :=
  [(InitStep.createInstance, InitStep.createSurface),
   (InitStep.createInstance, InitStep.pickPhysicalDevice),
   (InitStep.createSurface, InitStep.pickPhysicalDevice),
   (InitStep.pickPhysicalDevice, InitStep.createLogicalDevice),
   (InitStep.createLogicalDevice, InitStep.createSwapChain),
   (InitStep.createSurface, InitStep.createSwapChain),
   (InitStep.pickPhysicalDevice, InitStep.createSwapChain),
   (InitStep.createSwapChain, InitStep.createImageViews),
   (InitStep.createLogicalDevice, InitStep.createRenderPass),
   (InitStep.createSwapChain, InitStep.createRenderPass),
   (InitStep.createLogicalDevice, InitStep.createGraphicsPipeline),
   (InitStep.createRenderPass, InitStep.createGraphicsPipeline),
   (InitStep.createDescriptorSetLayout, InitStep.createGraphicsPipeline),
   (InitStep.createRenderPass, InitStep.createFramebuffers),
   (InitStep.createImageViews, InitStep.createFramebuffers),
   (InitStep.createLogicalDevice, InitStep.createCommandPool),
   (InitStep.createCommandPool, InitStep.createTextureImage),
   (InitStep.createTextureImage, InitStep.createTextureImageView),
   (InitStep.createLogicalDevice, InitStep.createVertexBuffer),
   (InitStep.createCommandPool, InitStep.createVertexBuffer),
   (InitStep.createLogicalDevice, InitStep.createIndexBuffer),
   (InitStep.createCommandPool, InitStep.createIndexBuffer),
   (InitStep.createLogicalDevice, InitStep.createUniformBuffers),
   (InitStep.createLogicalDevice, InitStep.createDescriptorPool),
   (InitStep.createDescriptorPool, InitStep.createDescriptorSets),
   (InitStep.createDescriptorSetLayout, InitStep.createDescriptorSets),
   (InitStep.createUniformBuffers, InitStep.createDescriptorSets),
   (InitStep.createTextureImageView, InitStep.createDescriptorSets),
   (InitStep.createTextureSampler, InitStep.createDescriptorSets),
   (InitStep.createCommandPool, InitStep.createCommandBuffers),
   (InitStep.createLogicalDevice, InitStep.createSyncObjects)]

/-! ## Top-level error handling (part_001, main, lines 1695-1710) -/

/-- Every exception message thrown anywhere in part_001 (all are
std::runtime_error except "unsupported layout transition!", a
std::invalid_argument; both carry a string and derive from std::exception). -/
def throwMessages : List String :=
  ["validation layers requested, but not available!",
   "Failed to create instance.",
   "failed to create window surface!",
   "failed to find GPUs with Vulkan support!",
   "failed to find a suitable GPU!",
   "failed to create logical device!",
   "failed to create swap chain!",
   "failed to create image view!",
   "failed to open file!",
   "failed to create pipeline layout!",
   "failed to create graphics pipeline!",
   "failed to create shader module!",
   "failed to create render pass!",
   "failed to create framebuffer!",
   "failed to create command pool!",
   "failed to begin recording command buffer!",
   "failed to record command buffer!",
   "failed to allocate command buffers!",
   "failed to create semaphores!",
   "failed to create buffer!",
   "failed to allocate buffer memory!",
   "unsupported layout transition!",
   "failed to find suitable memory type!",
   "failed to create descriptor set layout!",
   "failed to create descriptor pool!",
   "failed to allocate descriptor sets!",
   "failed to load texture image!",
   "failed to create image!",
   "failed to allocate image memory!",
   "failed to create texture sampler!",
   "failed to acquire swap chain image!",
   "failed to submit draw command buffer!"]

/-- What main produces: the lines written to standard error and the exit
code. -/
structure ProgramOutput where
  stderrLines : List String
  exitCode : Nat
  deriving DecidableEq

/-- main runs the application inside try/catch: on a caught exception it
writes the exception's message (followed by a newline) to std::cerr and
returns EXIT_FAILURE; otherwise it returns EXIT_SUCCESS. -/
def main (runResult : Except String Unit) : ProgramOutput :=
  match runResult with
  | Except.ok _ => { stderrLines := [], exitCode := EXIT_SUCCESS }
  | Except.error msg => { stderrLines := [msg ++ "\n"], exitCode := EXIT_FAILURE }

/-! ## Helper lemmas -/

/-- findMemoryTypeLoop only ever throws the one message of the source. -/
theorem findMemoryTypeLoop_error_msg (tf p : Nat) (mts : List Nat) :
    ∀ (idxs : List Nat) (msg : String),
      findMemoryTypeLoop tf p mts idxs = Except.error msg →
      msg = "failed to find suitable memory type!" := by
  intro idxs
  induction idxs with
  | nil =>
    intro msg h
    simp only [findMemoryTypeLoop, Except.error.injEq] at h
    exact h.symm
  | cons i rest ih =>
    intro msg h
    by_cases hc : memTypeMatches tf p mts i = true
    · simp [findMemoryTypeLoop, hc] at h
    · simp only [findMemoryTypeLoop, hc, if_false, Bool.false_eq_true,
        if_neg] at h
      exact ih msg h

/-- drawFrame only ever throws messages that appear among the source's
throw statements. -/
theorem drawFrame_threw_msg (env : DrawEnv) (st : DrawState) :
    ∀ (trace : List FrameEvent) (msg : String),
      drawFrame env st = DrawOutcome.threw trace msg → msg ∈ throwMessages := by
  intro trace msg h
  simp only [drawFrame] at h
  split at h
  · injection h
  · split at h
    · injection h with h1 h2
      subst h2
      decide
    · split at h
      · injection h with h1 h2
        subst h2
        decide
      · split at h
        · injection h
        · split at h
          · injection h with h1 h2
            subst h2
            decide
          · injection h

/-- The loop condition of findMemoryType holds exactly when bit i of the
filter is set and the memory type's property flags contain all requested
flags. -/
theorem memTypeMatches_iff (tf p : Nat) (mts : List Nat) (i : Nat) :
    memTypeMatches tf p mts i = true ↔
      (tf.testBit i ∧ (mts.getD i 0) &&& p = p) := by
  simp only [memTypeMatches, Bool.and_eq_true, bne_iff_ne, ne_eq, beq_iff_eq]
  constructor
  · rintro ⟨h1, h2⟩
    refine ⟨?_, h2⟩
    rw [Nat.one_shiftLeft, Nat.and_two_pow] at h1
    cases hb : tf.testBit i with
    | false =>
      rw [hb] at h1
      simp at h1
    | true => rfl
  · rintro ⟨h1, h2⟩
    refine ⟨?_, h2⟩
    rw [Nat.one_shiftLeft, Nat.and_two_pow, h1]
    simp [Nat.pow_eq_zero]

/-- Negated form of the loop condition. -/
theorem memTypeMatches_false_iff (tf p : Nat) (mts : List Nat) (i : Nat) :
    memTypeMatches tf p mts i = false ↔
      ¬(tf.testBit i ∧ (mts.getD i 0) &&& p = p) := by
  rw [← memTypeMatches_iff tf p mts i]
  constructor
  · intro h hc
    rw [h] at hc
    exact Bool.noConfusion hc
  · intro h
    cases hb : memTypeMatches tf p mts i with
    | false => rfl
    | true => exact absurd hb h

/-- What the search loop returns on a contiguous index range: the first
matching index, if any. -/
theorem findMemoryTypeLoop_range'_ok (tf p : Nat) (mts : List Nat) :
    ∀ (n k i : Nat),
      (findMemoryTypeLoop tf p mts (List.range' k n) = Except.ok i ↔
        (k ≤ i ∧ i < k + n ∧ memTypeMatches tf p mts i = true ∧
          ∀ j, k ≤ j → j < i → memTypeMatches tf p mts j = false)) := by
  intro n
  induction n with
  | zero =>
    intro k i
    simp only [List.range', findMemoryTypeLoop]
    constructor
    · intro h
      exact absurd h (by simp)
    · rintro ⟨h1, h2, _, _⟩
      omega
  | succ n ih =>
    intro k i
    rw [List.range'_succ]
    by_cases hk : memTypeMatches tf p mts k = true
    · rw [show findMemoryTypeLoop tf p mts (k :: List.range' (k + 1) n) =
          Except.ok k from by simp [findMemoryTypeLoop, hk]]
      constructor
      · intro h
        injection h with h1
        subst h1
        exact ⟨Nat.le_refl k, by omega, hk, fun j hj1 hj2 => by omega⟩
      · rintro ⟨h1, h2, h3, h4⟩
        have hik : i = k := by
          by_contra hne
          have := h4 k (Nat.le_refl k) (by omega)
          rw [hk] at this
          exact Bool.noConfusion this
        subst hik
        rfl
    · have hk' : memTypeMatches tf p mts k = false := by
        cases hb : memTypeMatches tf p mts k with
        | false => rfl
        | true => exact absurd hb hk
      rw [show findMemoryTypeLoop tf p mts (k :: List.range' (k + 1) n) =
          findMemoryTypeLoop tf p mts (List.range' (k + 1) n) from by
        simp [findMemoryTypeLoop, hk']]
      rw [ih (k + 1) i]
      constructor
      · rintro ⟨h1, h2, h3, h4⟩
        refine ⟨by omega, by omega, h3, ?_⟩
        intro j hj1 hj2
        rcases Nat.eq_or_lt_of_le hj1 with he | hl
        · exact he ▸ hk'
        · exact h4 j hl hj2
      · rintro ⟨h1, h2, h3, h4⟩
        have hik : i ≠ k := by
          intro he
          rw [he, hk'] at h3
          exact Bool.noConfusion h3
        refine ⟨by omega, by omega, h3, ?_⟩
        intro j hj1 hj2
        exact h4 j (by omega) hj2

/-- The search loop throws exactly when no index in the range matches. -/
theorem findMemoryTypeLoop_range'_err (tf p : Nat) (mts : List Nat) :
    ∀ (n k : Nat),
      (findMemoryTypeLoop tf p mts (List.range' k n) =
          Except.error "failed to find suitable memory type!" ↔
        ∀ j, k ≤ j → j < k + n → memTypeMatches tf p mts j = false) := by
  intro n
  induction n with
  | zero =>
    intro k
    simp only [List.range', findMemoryTypeLoop]
    constructor
    · intro _ j hj1 hj2
      omega
    · intro _
      trivial
  | succ n ih =>
    intro k
    rw [List.range'_succ]
    by_cases hk : memTypeMatches tf p mts k = true
    · rw [show findMemoryTypeLoop tf p mts (k :: List.range' (k + 1) n) =
          Except.ok k from by simp [findMemoryTypeLoop, hk]]
      constructor
      · intro h
        exact absurd h (by simp)
      · intro h
        have := h k (Nat.le_refl k) (by omega)
        rw [hk] at this
        exact Bool.noConfusion this
    · have hk' : memTypeMatches tf p mts k = false := by
        cases hb : memTypeMatches tf p mts k with
        | false => rfl
        | true => exact absurd hb hk
      rw [show findMemoryTypeLoop tf p mts (k :: List.range' (k + 1) n) =
          findMemoryTypeLoop tf p mts (List.range' (k + 1) n) from by
        simp [findMemoryTypeLoop, hk']]
      rw [ih (k + 1)]
      constructor
      · intro h j hj1 hj2
        rcases Nat.eq_or_lt_of_le hj1 with he | hl
        · exact he ▸ hk'
        · exact h j hl (by omega)
      · intro h j hj1 hj2
        exact h j (by omega) (by omega)

/-- First-match decomposition for List.find?. -/
theorem find?_decomposition {α : Type} (p : α → Bool) :
    ∀ (l : List α) (a : α), l.find? p = some a →
      ∃ l₁ l₂, l = l₁ ++ a :: l₂ ∧ p a = true ∧ ∀ x ∈ l₁, p x = false := by
  intro l
  induction l with
  | nil =>
    intro a h
    simp [List.find?] at h
  | cons x xs ih =>
    intro a h
    by_cases hx : p x = true
    · rw [List.find?_cons_of_pos xs hx] at h
      injection h with h1
      subst h1
      exact ⟨[], xs, rfl, hx, by simp⟩
    · have hx' : p x = false := by
        cases hb : p x with
        | false => rfl
        | true => exact absurd hb hx
      rw [List.find?_cons_of_neg xs hx] at h
      rcases ih a h with ⟨l₁, l₂, he, hpa, hall⟩
      refine ⟨x :: l₁, l₂, by rw [he]; rfl, hpa, ?_⟩
      intro y hy
      rcases List.mem_cons.mp hy with rfl | hy2
      · exact hx'
      · exact hall y hy2

/-- Soundness of the surface-format choice on a format list: the result is
an element of the list; when a preferred format exists the result is the
first preferred one; when none exists the result is the first element. -/
def SurfaceFormatChoiceSound (formats : List VkSurfaceFormatKHR) : Prop :=
  ∃ h : formats ≠ [],
    chooseSwapSurfaceFormat formats h ∈ formats ∧
    ((∃ f ∈ formats, isPreferredSurfaceFormat f = true) →
      ∃ l₁ l₂, formats = l₁ ++ chooseSwapSurfaceFormat formats h :: l₂ ∧
        isPreferredSurfaceFormat (chooseSwapSurfaceFormat formats h) = true ∧
        ∀ g ∈ l₁, isPreferredSurfaceFormat g = false) ∧
    ((∀ f ∈ formats, isPreferredSurfaceFormat f = false) →
      chooseSwapSurfaceFormat formats h = formats.head h)

/-- The surface-format choice is sound on every non-empty format list. -/
theorem surfaceFormatChoiceSound_of_ne_nil (l : List VkSurfaceFormatKHR)
    (h : l ≠ []) : SurfaceFormatChoiceSound l := by
  refine ⟨h, ?_, ?_, ?_⟩
  · cases hf : l.find? isPreferredSurfaceFormat with
    | some f =>
      rw [show chooseSwapSurfaceFormat l h = f from by
        simp [chooseSwapSurfaceFormat, hf]]
      exact List.mem_of_find?_eq_some hf
    | none =>
      rw [show chooseSwapSurfaceFormat l h = l.head h from by
        simp [chooseSwapSurfaceFormat, hf]]
      exact List.head_mem h
  · intro hex
    cases hf : l.find? isPreferredSurfaceFormat with
    | none =>
      rcases hex with ⟨f, hm, hp⟩
      rw [List.find?_eq_none] at hf
      exact absurd hp (by simpa using hf f hm)
    | some f =>
      rcases find?_decomposition isPreferredSurfaceFormat l f hf with
        ⟨l₁, l₂, he, hp, hall⟩
      rw [show chooseSwapSurfaceFormat l h = f from by
        simp [chooseSwapSurfaceFormat, hf]]
      exact ⟨l₁, l₂, he, hp, hall⟩
  · intro hnone
    have hf : l.find? isPreferredSurfaceFormat = none := by
      rw [List.find?_eq_none]
      intro x hx
      simp [hnone x hx]
    simp [chooseSwapSurfaceFormat, hf]

/-- A concrete suitable physical device used as a witness input. -/
def sampleDevice : PhysicalDeviceInfo :=
  { queueFamiliesComplete := true
    extensionsSupported := true
    swapChainSupport :=
      { formats := [{ format := VK_FORMAT_B8G8R8A8_SRGB,
                      colorSpace := VK_COLOR_SPACE_SRGB_NONLINEAR_KHR }]
        presentModes := [VkPresentModeKHR.fifoKHR] }
    samplerAnisotropy := true }

/-! ## Claim theorems -/

/-- C7: chooseSwapPresentMode returns VK_PRESENT_MODE_MAILBOX_KHR exactly
when that mode occurs somewhere in the available list, and returns
VK_PRESENT_MODE_FIFO_KHR otherwise, including for the empty list. -/
theorem chooseSwapPresentMode_spec (modes : List VkPresentModeKHR) :
    (chooseSwapPresentMode modes = VkPresentModeKHR.mailboxKHR ↔
      VkPresentModeKHR.mailboxKHR ∈ modes) ∧
    (VkPresentModeKHR.mailboxKHR ∉ modes →
      chooseSwapPresentMode modes = VkPresentModeKHR.fifoKHR) := by
  induction modes with
  | nil => simp [chooseSwapPresentMode]
  | cons m rest ih =>
    by_cases hm : m = VkPresentModeKHR.mailboxKHR
    · subst hm
      simp [chooseSwapPresentMode]
    · constructor
      · simp only [chooseSwapPresentMode, if_neg hm, List.mem_cons]
        constructor
        · intro h
          exact Or.inr (ih.1.mp h)
        · intro h
          rcases h with h | h
          · exact absurd h.symm hm
          · exact ih.1.mpr h
      · intro h
        simp only [List.mem_cons, not_or] at h
        simp only [chooseSwapPresentMode, if_neg hm]
        exact ih.2 h.2

/-- Witness for C7: a list without the mailbox mode yields FIFO. -/
theorem chooseSwapPresentMode_spec_witness :
    chooseSwapPresentMode
      [VkPresentModeKHR.immediateKHR, VkPresentModeKHR.fifoRelaxedKHR] =
      VkPresentModeKHR.fifoKHR :=
  (chooseSwapPresentMode_spec
    [VkPresentModeKHR.immediateKHR, VkPresentModeKHR.fifoRelaxedKHR]).2
    (by decide)

/-- C10: every element of the constant index list is strictly below the
length of the constant vertex list, and the index count is a multiple of
three, so the indexed triangle-list draw references only defined vertices
and forms whole triangles. -/
theorem indices_in_bounds :
    (∀ i ∈ indices, i < vertices.length) ∧ indices.length % 3 = 0 := by
  constructor
  · decide
  · decide

/-- Witness for C10: the largest used index, 3, is in bounds. -/
theorem indices_in_bounds_witness : 3 < vertices.length :=
  indices_in_bounds.1 3 (by decide)

/-- C5: run() calls initVulkan exactly once; the claimed creation order
(instance, surface, physical device, logical device, swapchain, render
pass, pipeline, buffers, descriptor sets, sync objects) is a sublist of the
actual initVulkan body; each claimed step occurs exactly once; and every
recorded uses-the-result-of dependency between steps is respected by the
order of the body. -/
theorem initVulkan_order :
    runPhases.count RunPhase.initVulkan = 1 ∧
    List.Sublist claimedInitOrder initVulkanSteps ∧
    (∀ s ∈ claimedInitOrder, initVulkanSteps.count s = 1) ∧
    (∀ d ∈ initVulkanDeps,
      initVulkanSteps.indexOf d.1 < initVulkanSteps.indexOf d.2) := by
  refine ⟨by decide, by decide, by decide, by decide⟩

/-- Witness for C5: the surface is created after the instance it needs. -/
theorem initVulkan_order_witness :
    initVulkanSteps.indexOf InitStep.createInstance <
      initVulkanSteps.indexOf InitStep.createSurface :=
  initVulkan_order.2.2.2 (InitStep.createInstance, InitStep.createSurface)
    (by decide)

/-- C2 (the code contradicts the claim): the attribute descriptions of the
Vertex header in the sources number two and cover shader locations 0 and 1
only, while the vertex shader cloth.vert declares three inputs at locations
0, 1 and 2, and the vertex constants of part_001 carry three components
each; no attribute description exists for the texture-coordinate input at
location 2. -/
theorem vertex_record_mismatch :
    getAttributeDescriptions.length = 2 ∧
    getAttributeDescriptions.map VkVertexInputAttributeDescription.location =
      [0, 1] ∧
    clothVertInputs.map ShaderInput.location = [0, 1, 2] ∧
    ¬(∀ s ∈ clothVertInputs, ∃ a ∈ getAttributeDescriptions,
        a.location = s.location) ∧
    vertices.length = 4 := by
  refine ⟨rfl, rfl, rfl, by decide, rfl⟩

/-- C3: main catches every exception, writes the carried message to
standard error and returns EXIT_FAILURE; without an exception it returns
EXIT_SUCCESS; every message in the program's throw set is a nonempty
string; and the embedded failure paths (drawFrame and findMemoryType) only
throw messages from that set. -/
theorem main_error_handling :
    (∀ msg, main (Except.error msg) =
      { stderrLines := [msg ++ "\n"], exitCode := EXIT_FAILURE }) ∧
    main (Except.ok ()) = { stderrLines := [], exitCode := EXIT_SUCCESS } ∧
    (∀ m ∈ throwMessages, m ≠ "") ∧
    (∀ env st trace msg, drawFrame env st = DrawOutcome.threw trace msg →
      msg ∈ throwMessages) ∧
    (∀ tf props mts msg, findMemoryType tf props mts = Except.error msg →
      msg ∈ throwMessages) := by
  refine ⟨fun msg => rfl, rfl, by decide, ?_, ?_⟩
  · intro env st trace msg h
    exact drawFrame_threw_msg env st trace msg h
  · intro tf props mts msg h
    have e := findMemoryTypeLoop_error_msg tf props mts
      (List.range mts.length) msg h
    subst e
    decide

/-- Witness for C3 at the shader-file failure message. -/
theorem main_error_handling_witness :
    main (Except.error "failed to open file!") =
      { stderrLines := ["failed to open file!" ++ "\n"],
        exitCode := EXIT_FAILURE } ∧
    ("failed to open file!" : String) ≠ "" :=
  ⟨main_error_handling.1 "failed to open file!",
   main_error_handling.2.2.1 "failed to open file!" (by decide)⟩

/-- The five key steps named by the specification, in their claimed order. -/
def drawFrameKeySteps : List FrameEvent :=
  [FrameEvent.waitFences, FrameEvent.acquireImage,
   FrameEvent.recordCommandBuffer, FrameEvent.queueSubmit,
   FrameEvent.queuePresent]

/-- C4: every drawFrame call that completes without early return performs
the fence wait, the swapchain-image acquire, the command-buffer recording,
the queue submission and the presentation each exactly once and in this
order. -/
theorem drawFrame_step_order (env : DrawEnv) (st : DrawState)
    (trace : List FrameEvent) (st2 : DrawState)
    (h : drawFrame env st = DrawOutcome.completed trace st2) :
    trace.filter (fun e => decide (e ∈ drawFrameKeySteps)) =
      drawFrameKeySteps := by
  simp only [drawFrame] at h
  split at h
  · injection h
  · split at h
    · injection h
    · split at h
      · injection h
      · split at h
        · injection h with h1 h2
          subst h1
          decide
        · split at h
          · injection h
          · injection h with h1 h2
            subst h1
            decide

/-- Witness for C4 at an all-success frame environment. -/
theorem drawFrame_step_order_witness :
    ([FrameEvent.waitFences, FrameEvent.resetFences, FrameEvent.acquireImage,
      FrameEvent.updateUniformBuffer, FrameEvent.resetFences,
      FrameEvent.resetCommandBuffer, FrameEvent.recordCommandBuffer,
      FrameEvent.queueSubmit, FrameEvent.queuePresent,
      FrameEvent.recreateSwapChain] : List FrameEvent).filter
        (fun e => decide (e ∈ drawFrameKeySteps)) = drawFrameKeySteps :=
  drawFrame_step_order envAllSuccess initialState _
    { currentFrame := 1, framebufferResized := false } (by decide)

/-- A completed drawFrame advances currentFrame to
(currentFrame + 1) mod MAX_FRAMES_IN_FLIGHT. -/
theorem drawFrame_completed_advance (env : DrawEnv) (st : DrawState)
    (trace : List FrameEvent) (st2 : DrawState)
    (h : drawFrame env st = DrawOutcome.completed trace st2) :
    st2.currentFrame = (st.currentFrame + 1) % MAX_FRAMES_IN_FLIGHT := by
  simp only [drawFrame] at h
  split at h
  · injection h
  · split at h
    · injection h
    · split at h
      · injection h
      · split at h
        · injection h with h1 h2
          subst h2
          rfl
        · split at h
          · injection h
          · injection h with h1 h2
            subst h2
            rfl

/-- An early-returning drawFrame leaves the state unchanged. -/
theorem drawFrame_earlyReturn_state (env : DrawEnv) (st : DrawState)
    (trace : List FrameEvent) (st2 : DrawState)
    (h : drawFrame env st = DrawOutcome.earlyReturn trace st2) : st2 = st := by
  simp only [drawFrame] at h
  split at h
  · injection h with h1 h2
    exact h2.symm
  · split at h
    · injection h
    · split at h
      · injection h
      · split at h
        · injection h
        · split at h
          · injection h
          · injection h

/-- One mainLoop iteration keeps the frame index below
MAX_FRAMES_IN_FLIGHT. -/
theorem stepFrame_currentFrame_lt (env : DrawEnv) (st : DrawState)
    (h : st.currentFrame < MAX_FRAMES_IN_FLIGHT) :
    (stepFrame env st).currentFrame < MAX_FRAMES_IN_FLIGHT := by
  simp only [stepFrame]
  cases hd : drawFrame env
      { st with framebufferResized := st.framebufferResized || env.resizeEvent } with
  | completed tr s2 =>
    show s2.currentFrame < MAX_FRAMES_IN_FLIGHT
    rw [drawFrame_completed_advance env _ tr s2 hd]
    exact Nat.mod_lt _ (by decide)
  | earlyReturn tr s2 =>
    show s2.currentFrame < MAX_FRAMES_IN_FLIGHT
    rw [drawFrame_earlyReturn_state env _ tr s2 hd]
    exact h
  | threw tr msg =>
    exact h

/-- The frame-index bound is preserved by any run of mainLoop iterations. -/
theorem runFramesAux_lt :
    ∀ (envs : List DrawEnv) (st : DrawState),
      st.currentFrame < MAX_FRAMES_IN_FLIGHT →
      (envs.foldl (fun s e => stepFrame e s) st).currentFrame <
        MAX_FRAMES_IN_FLIGHT := by
  intro envs
  induction envs with
  | nil =>
    intro st h
    exact h
  | cons e rest ih =>
    intro st h
    exact ih (stepFrame e st) (stepFrame_currentFrame_lt e st h)

/-- C6: currentFrame starts at 0, every completed drawFrame advances it by
exactly (currentFrame + 1) mod MAX_FRAMES_IN_FLIGHT, and after any sequence
of frames it stays strictly below MAX_FRAMES_IN_FLIGHT = 2, the size of
every per-frame array (fences, semaphores, command buffers, descriptor
sets, uniform buffers), so all per-frame indexing is in bounds. -/
theorem currentFrame_always_in_bounds :
    initialState.currentFrame = 0 ∧
    (∀ env st trace st2, drawFrame env st = DrawOutcome.completed trace st2 →
      st2.currentFrame = (st.currentFrame + 1) % MAX_FRAMES_IN_FLIGHT) ∧
    (∀ envs : List DrawEnv,
      (runFrames envs).currentFrame < MAX_FRAMES_IN_FLIGHT ∧
      (runFrames envs).currentFrame < inFlightFencesLength ∧
      (runFrames envs).currentFrame < imageAvailableSemaphoresLength ∧
      (runFrames envs).currentFrame < renderFinishedSemaphoresLength ∧
      (runFrames envs).currentFrame < commandBuffersLength ∧
      (runFrames envs).currentFrame < descriptorSetsLength ∧
      (runFrames envs).currentFrame < uniformBuffersLength) := by
  refine ⟨rfl, drawFrame_completed_advance, ?_⟩
  intro envs
  have h := runFramesAux_lt envs initialState (by decide)
  exact ⟨h, h, h, h, h, h, h⟩

/-- Witness for C6 after one successful frame. -/
theorem currentFrame_always_in_bounds_witness :
    (runFrames [envAllSuccess]).currentFrame < MAX_FRAMES_IN_FLIGHT :=
  (currentFrame_always_in_bounds.2.2 [envAllSuccess]).1

/-- C1 (the code contradicts the claim): in the present handling of
drawFrame, comparing the VkResult against the bool framebufferResized
(promoted to 0) makes the recreate condition true for VK_SUCCESS with no
pending resize, so even a fully successful frame invokes
recreateSwapChain. -/
theorem present_success_triggers_recreate :
    presentHandlingRecreates VK_SUCCESS false = true ∧
    ∃ trace st2,
      drawFrame envAllSuccess initialState = DrawOutcome.completed trace st2 ∧
      FrameEvent.recreateSwapChain ∈ trace := by
  refine ⟨by decide, ?_⟩
  exact ⟨[FrameEvent.waitFences, FrameEvent.resetFences, FrameEvent.acquireImage,
    FrameEvent.updateUniformBuffer, FrameEvent.resetFences,
    FrameEvent.resetCommandBuffer, FrameEvent.recordCommandBuffer,
    FrameEvent.queueSubmit, FrameEvent.queuePresent,
    FrameEvent.recreateSwapChain],
    { currentFrame := 1, framebufferResized := false }, by decide, by decide⟩

/-- C8: findMemoryType returns the smallest index below the memory type
count whose filter bit is set and whose property flags contain all
requested flags, and throws "failed to find suitable memory type!" exactly
when no such index exists. -/
theorem findMemoryType_spec (typeFilter properties : Nat)
    (memoryTypes : List Nat) :
    (∀ i, findMemoryType typeFilter properties memoryTypes = Except.ok i ↔
      (i < memoryTypes.length ∧ typeFilter.testBit i ∧
        (memoryTypes.getD i 0) &&& properties = properties ∧
        ∀ j, j < i →
          ¬(typeFilter.testBit j ∧
            (memoryTypes.getD j 0) &&& properties = properties))) ∧
    (findMemoryType typeFilter properties memoryTypes =
        Except.error "failed to find suitable memory type!" ↔
      ∀ i, i < memoryTypes.length →
        ¬(typeFilter.testBit i ∧
          (memoryTypes.getD i 0) &&& properties = properties)) := by
  constructor
  · intro i
    rw [findMemoryType, List.range_eq_range',
      findMemoryTypeLoop_range'_ok typeFilter properties memoryTypes
        memoryTypes.length 0 i]
    constructor
    · rintro ⟨h1, h2, h3, h4⟩
      rw [memTypeMatches_iff] at h3
      refine ⟨by omega, h3.1, h3.2, ?_⟩
      intro j hj
      exact (memTypeMatches_false_iff typeFilter properties memoryTypes j).mp
        (h4 j (Nat.zero_le j) hj)
    · rintro ⟨h1, h2, h3, h4⟩
      refine ⟨Nat.zero_le i, by omega,
        (memTypeMatches_iff typeFilter properties memoryTypes i).mpr ⟨h2, h3⟩, ?_⟩
      intro j _ hj
      exact (memTypeMatches_false_iff typeFilter properties memoryTypes j).mpr
        (h4 j hj)
  · rw [findMemoryType, List.range_eq_range',
      findMemoryTypeLoop_range'_err typeFilter properties memoryTypes
        memoryTypes.length 0]
    constructor
    · intro h i hi
      exact (memTypeMatches_false_iff typeFilter properties memoryTypes i).mp
        (h i (Nat.zero_le i) (by omega))
    · intro h j _ hj
      exact (memTypeMatches_false_iff typeFilter properties memoryTypes j).mpr
        (h j (by omega))

/-- Witness for C8: filter bit 0 set, no required properties, one memory
type: index 0 is returned. -/
theorem findMemoryType_spec_witness :
    findMemoryType 1 0 [0] = Except.ok 0 :=
  ((findMemoryType_spec 1 0 [0]).1 0).mpr
    ⟨by decide, by decide, by decide, fun j hj => absurd hj (Nat.not_lt_zero j)⟩

/-- C9: a device accepted by isDeviceSuitable has a non-empty queried
surface-format list, and on that list chooseSwapSurfaceFormat returns an
element of the list — the first preferred (B8G8R8A8_SRGB with SRGB
nonlinear color space) one when present, the first element otherwise — so
the unguarded [0] indexing never reads out of bounds in the program. -/
theorem chooseSwapSurfaceFormat_safe (d : PhysicalDeviceInfo)
    (hd : isDeviceSuitable d = true) :
    SurfaceFormatChoiceSound d.swapChainSupport.formats := by
  have hne : d.swapChainSupport.formats ≠ [] := by
    simp only [isDeviceSuitable, Bool.and_eq_true] at hd
    rcases hd with ⟨⟨⟨hq, hext⟩, hadq⟩, hanis⟩
    rw [if_pos hext, Bool.and_eq_true] at hadq
    rcases hadq with ⟨h1, h2⟩
    intro hcon
    rw [hcon] at h1
    exact Bool.noConfusion h1
  exact surfaceFormatChoiceSound_of_ne_nil d.swapChainSupport.formats hne

/-- Witness for C9 at a concrete suitable device. -/
theorem chooseSwapSurfaceFormat_safe_witness :
    SurfaceFormatChoiceSound sampleDevice.swapChainSupport.formats :=
  chooseSwapSurfaceFormat_safe sampleDevice (by decide)

end VulkanClothSim
